import Mathlib

/-!
# Verification of the demo-devops-agent core

Shallow embedding of the two behavioral components of the repository:

* the **Write-and-Classify Driver** (`lambda/writer.ts`): fires a batch of
  DynamoDB `PutItem` attempts, classifies each outcome as success /
  throttled / error, and throws iff any attempt was throttled;
* the **Signed Webhook Dispatcher** (`lambda/webhook-notifier.ts`):
  normalizes a CloudWatch alarm event, builds an incident payload,
  signs the serialized payload with HMAC-SHA256 and delivers it by POST,
  with a dry-run mode and configuration preflight.

Effects are made explicit: the store's per-attempt outcome and the HTTPS
transport are parameters, clock reads (`Date.now()`,
`new Date().toISOString()`) are explicit arguments, and the webhook handler
returns a trace carrying its result, the requests it issued and the payload
it built.  Machine words inside SHA-256 are `Nat` reduced `% 2 ^ 32`.
-/

namespace DemoDevOpsAgent

/-- `needle` occurs as a contiguous substring of `haystack`. -/
def containsSubstr (needle haystack : String) : Prop :=
  ∃ pre suf : String, haystack = pre ++ needle ++ suf

namespace Writer

/-- Outcome of one `client.send(new PutItemCommand ...)` call: either it
resolves, or it rejects with an error carrying a `name` and a `message`
(`writer.ts` lines 41-58). -/
inductive PutOutcome where
  | ok : PutOutcome
  | err (name : String) (message : String) : PutOutcome

/-- The `WriteResult` record of `writer.ts` (lines 10-15). -/
structure WriteResult where
  success : Nat
  throttled : Nat
  errors : Nat
  totalAttempts : Nat
  deriving Repr, DecidableEq

/-- Classification of a single attempt's outcome into the tally
(`writer.ts` lines 41-58): resolution increments `success`; a rejection
named `ProvisionedThroughputExceededException` increments `throttled`;
any other rejection increments `errors`. -/
def classifyAttempt (r : WriteResult) (o : PutOutcome) : WriteResult :=
  match o with
  | .ok => { r with success := r.success + 1 }
  | .err name _ =>
      if name = "ProvisionedThroughputExceededException" then
        { r with throttled := r.throttled + 1 }
      else
        { r with errors := r.errors + 1 }

/-- The batch tally: `count` attempts (indices `0..count-1`), each classified
into the accumulator that starts at `{0,0,0,count}` (`writer.ts` lines
21-61).  The attempts run concurrently in the source; each contributes one
counter increment, so the aggregate is order-independent and is modelled as
a fold over the indices. -/
def runBatch (count : Nat) (outcome : Nat → PutOutcome) : WriteResult :=
  (List.range count).foldl (fun r i => classifyAttempt r (outcome i))
    { success := 0, throttled := 0, errors := 0, totalAttempts := count }

/-- The writer handler (`writer.ts` lines 17-76): tally the batch, then
throw `Throttling occurred: t/n requests were throttled` iff `throttled > 0`,
else return the tally. -/
def handler (count : Nat) (outcome : Nat → PutOutcome) :
    Except String WriteResult :=
  let results := runBatch count outcome
  if results.throttled > 0 then
    .error ("Throttling occurred: " ++ toString results.throttled ++ "/" ++
      toString results.totalAttempts ++ " requests were throttled")
  else
    .ok results

end Writer

/-! ## Bytes and crypto

`webhook-notifier.ts` signs with Node's `crypto.createHmac('sha256', secret)`
over the UTF-8 bytes of `timestamp + ':' + payloadString` and emits the
digest in base64.  The primitives (UTF-8, SHA-256 per FIPS 180-4, HMAC per
FIPS 198-1, base64 per RFC 4648) are implemented here over `Nat` byte
values; they are validated below against published test vectors. -/

/-- UTF-8 encoding of a single character (RFC 3629), as byte values. -/
def utf8Char (c : Char) : List Nat :=
  let n := c.toNat
  if n < 0x80 then [n]
  else if n < 0x800 then
    [0xc0 + n / 0x40, 0x80 + n % 0x40]
  else if n < 0x10000 then
    [0xe0 + n / 0x1000, 0x80 + n / 0x40 % 0x40, 0x80 + n % 0x40]
  else
    [0xf0 + n / 0x40000, 0x80 + n / 0x1000 % 0x40, 0x80 + n / 0x40 % 0x40,
      0x80 + n % 0x40]

/-- UTF-8 encoding of a string. -/
def utf8Bytes (s : String) : List Nat :=
  (s.data.map utf8Char).flatten

/-- Right rotation of a 32-bit word. -/
def rotr (k n : Nat) : Nat :=
  (n >>> k) ||| (n <<< (32 - k) % 4294967296)

/-- SHA-256 `Σ₀`. -/
def bsig0 (x : Nat) : Nat := rotr 2 x ^^^ rotr 13 x ^^^ rotr 22 x

/-- SHA-256 `Σ₁`. -/
def bsig1 (x : Nat) : Nat := rotr 6 x ^^^ rotr 11 x ^^^ rotr 25 x

/-- SHA-256 `σ₀`. -/
def ssig0 (x : Nat) : Nat := rotr 7 x ^^^ rotr 18 x ^^^ (x >>> 3)

/-- SHA-256 `σ₁`. -/
def ssig1 (x : Nat) : Nat := rotr 17 x ^^^ rotr 19 x ^^^ (x >>> 10)

/-- The 64 SHA-256 round constants. -/
def sha256K : List Nat :=
  [1116352408, 1899447441, 3049323471, 3921009573, 961987163, 1508970993,
   2453635748, 2870763221, 3624381080, 310598401, 607225278, 1426881987,
   1925078388, 2162078206, 2614888103, 3248222580, 3835390401, 4022224774,
   264347078, 604807628, 770255983, 1249150122, 1555081692, 1996064986,
   2554220882, 2821834349, 2952996808, 3210313671, 3336571891, 3584528711,
   113926993, 338241895, 666307205, 773529912, 1294757372, 1396182291,
   1695183700, 1986661051, 2177026350, 2456956037, 2730485921, 2820302411,
   3259730800, 3345764771, 3516065817, 3600352804, 4094571909, 275423344,
   430227734, 506948616, 659060556, 883997877, 958139571, 1322822218,
   1537002063, 1747873779, 1955562222, 2024104815, 2227730452, 2361852424,
   2428436474, 2756734187, 3204031479, 3329325298]

/-- The eight SHA-256 initial hash values. -/
def sha256Seed : List Nat :=
  [1779033703, 3144134277, 1013904242, 2773480762,
   1359893119, 2600822924, 528734635, 1541459225]

/-- Bytes (big-endian groups of 4) to 32-bit words. -/
def toWords : List Nat → List Nat
  | b0 :: b1 :: b2 :: b3 :: rest =>
      (((b0 * 256 + b1) * 256 + b2) * 256 + b3) :: toWords rest
  | _ => []

/-- One step of the message-schedule extension. -/
def nextW (w : List Nat) : Nat :=
  let n := w.length
  (ssig1 (w.getD (n - 2) 0) + w.getD (n - 7) 0 + ssig0 (w.getD (n - 15) 0) +
    w.getD (n - 16) 0) % 4294967296

/-- Extend the 16 block words to the 64-entry message schedule. -/
def schedule (w16 : List Nat) : List Nat :=
  (List.range 48).foldl (fun w _ => w ++ [nextW w]) w16

/-- One round of the SHA-256 compression function on the 8-register state. -/
def compressRound (kw : Nat × Nat) (s : List Nat) : List Nat :=
  match s with
  | [a, b, c, d, e, f, g, h] =>
      let ch := (e &&& f) ^^^ ((0xffffffff ^^^ e) &&& g)
      let maj := (a &&& b) ^^^ (a &&& c) ^^^ (b &&& c)
      let t1 := (h + bsig1 e + ch + kw.fst + kw.snd) % 4294967296
      let t2 := (bsig0 a + maj) % 4294967296
      [(t1 + t2) % 4294967296, a, b, c, (d + t1) % 4294967296, e, f, g]
  | other => other

/-- Process one 64-byte block. -/
def processBlock (h : List Nat) (block : List Nat) : List Nat :=
  let w := schedule (toWords block)
  let s := (sha256K.zip w).foldl (fun st kw => compressRound kw st) h
  List.zipWith (fun x y => (x + y) % 4294967296) h s

/-- SHA-256 padding: `0x80`, zeros to 56 mod 64, then the 8-byte big-endian
bit length (FIPS 180-4 5.1.1). -/
def padMessage (msg : List Nat) : List Nat :=
  let len := msg.length
  let padZeros := (119 - len % 64) % 64
  msg ++ [0x80] ++ List.replicate padZeros 0 ++
    (List.range 8).map (fun i => (len * 8) >>> ((7 - i) * 8) % 256)

/-- Split into 64-byte blocks, with fuel for structural recursion. -/
def chunks64Aux : Nat → List Nat → List (List Nat)
  | 0, _ => []
  | _, [] => []
  | fuel + 1, b :: rest =>
      (b :: rest).take 64 :: chunks64Aux fuel ((b :: rest).drop 64)

/-- Split into 64-byte blocks. -/
def chunks64 (l : List Nat) : List (List Nat) :=
  chunks64Aux l.length l

/-- Big-endian 4-byte serialization of a 32-bit word. -/
def wordBytes (x : Nat) : List Nat :=
  [x >>> 24 % 256, x >>> 16 % 256, x >>> 8 % 256, x % 256]

/-- SHA-256 of a byte list (FIPS 180-4), 32-byte digest. -/
def sha256 (msg : List Nat) : List Nat :=
  (((chunks64 (padMessage msg)).foldl processBlock sha256Seed).map
    wordBytes).flatten

/-- HMAC-SHA256 (FIPS 198-1) of `msg` under `key`. -/
def hmacSha256 (key msg : List Nat) : List Nat :=
  let kh := if key.length > 64 then sha256 key else key
  let k0 := kh ++ List.replicate (64 - kh.length) 0
  sha256 ((k0.map (fun b => b ^^^ 0x5c)) ++
    sha256 ((k0.map (fun b => b ^^^ 0x36)) ++ msg))

/-- The base64 alphabet (RFC 4648). -/
def base64Chars : List Char :=
  "ABCDEFGHIJKLMNOPQRSTUVWXYZabcdefghijklmnopqrstuvwxyz0123456789+/".data

/-- The base64 digit for a 6-bit value. -/
def b64c (i : Nat) : Char := base64Chars.getD i 'A'

/-- RFC 4648 base64 of a byte list, with `=` padding. -/
def base64Encode : List Nat → List Char
  | b0 :: b1 :: b2 :: rest =>
      let n := (b0 * 256 + b1) * 256 + b2
      b64c (n >>> 18) :: b64c (n >>> 12 % 64) :: b64c (n >>> 6 % 64) ::
        b64c (n % 64) :: base64Encode rest
  | [b0, b1] =>
      let n := (b0 * 256 + b1) * 4
      [b64c (n >>> 12), b64c (n >>> 6 % 64), b64c (n % 64), '=']
  | [b0] =>
      let n := b0 * 16
      [b64c (n >>> 6), b64c (n % 64), '=', '=']
  | [] => []

/-- Base64 of the HMAC-SHA256 digest: Node's
`createHmac('sha256', key).update(msg).digest('base64')`. -/
def hmacSha256Base64 (key msg : List Nat) : String :=
  ⟨base64Encode (hmacSha256 key msg)⟩

namespace WebhookNotifier

/-- The environment-derived configuration of `webhook-notifier.ts`
(lines 6-9): `WEBHOOK_ENABLED === 'true'`, `WEBHOOK_URL || ''`,
`WEBHOOK_SECRET || ''`, `SERVICE_NAME || 'DemoDevOpsAgent'`. -/
structure WebhookConfig where
  enabled : Bool
  url : String
  secret : String
  serviceName : String

/-- The `alarmData.state` sub-object of the inbound CloudWatch alarm event.
Fields are optional: the handler reads them through `?.` and `||`. -/
structure AlarmStateInfo where
  value : Option String
  reason : Option String
  timestamp : Option String

/-- The `alarmData` sub-object of the inbound event. -/
structure AlarmData where
  alarmName : Option String
  state : Option AlarmStateInfo

/-- The inbound CloudWatch alarm event, restricted to the fields the
handler reads.  Every field is optional, matching the `?.`/`||` reads. -/
structure CloudWatchAlarmEvent where
  alarmArn : Option String
  accountId : Option String
  region : Option String
  alarmData : Option AlarmData

/-- JavaScript `a || d` for an optionally-present string `a`: the default
is taken when the field is absent or the empty string (both falsy). -/
def orFalsy (v : Option String) (d : String) : String :=
  match v with
  | none => d
  | some s => if s = "" then d else s

/-- The characters matched by the JavaScript regex class `\s`. -/
def isJsWhitespace (c : Char) : Bool :=
  c = ' ' || c = '\t' || c = '\n' || c = '\u000b' || c = '\u000c' ||
  c = '\r' || c = '\u00a0' || c = '\u1680' ||
  (0x2000 ≤ c.toNat && c.toNat ≤ 0x200a) ||
  c = '\u2028' || c = '\u2029' || c = '\u202f' || c = '\u205f' ||
  c = '\u3000' || c = '\ufeff'

/-- `alarmName.replace(/\s+/g, '-')` on the character list: each maximal
run of whitespace becomes a single `-`.  The flag records whether the
previous character belonged to a run already replaced. -/
def collapseWsAux : List Char → Bool → List Char
  | [], _ => []
  | c :: rest, inRun =>
      if isJsWhitespace c then
        if inRun then collapseWsAux rest true
        else '-' :: collapseWsAux rest true
      else c :: collapseWsAux rest false

/-- `alarmName.replace(/\s+/g, '-')`. -/
def collapseWs (s : String) : String :=
  ⟨collapseWsAux s.data false⟩

/-- The `data.metadata` block of the outbound payload. -/
structure PayloadMetadata where
  region : String
  environment : String
  affectedResources : List String
  alarmName : String
  alarmArn : String
  accountId : String

/-- The `DevOpsAgentWebhookPayload` record of `webhook-notifier.ts`
(lines 50-69); `metadata` stands for the nested `data.metadata` block. -/
structure DevOpsAgentWebhookPayload where
  eventType : String
  incidentId : String
  action : String
  priority : String
  title : String
  description : String
  service : String
  timestamp : String
  metadata : PayloadMetadata

/-- `buildWebhookPayload` (`webhook-notifier.ts` lines 121-154): the
incident id is the whitespace-collapsed alarm name followed by `-` and
`Date.now()` (the build-time wall-clock millisecond count `nowMs`);
`affectedResources` is `[alarmArn]` unless `alarmArn` is falsy. -/
def buildWebhookPayload (serviceName alarmName stateReason timestamp
    region accountId alarmArn : String) (nowMs : Nat) :
    DevOpsAgentWebhookPayload :=
  { eventType := "incident"
    incidentId := collapseWs alarmName ++ "-" ++ toString nowMs
    action := "created"
    priority := "HIGH"
    title := "[CloudWatch Alarm] " ++ alarmName
    description := stateReason
    service := serviceName
    timestamp := timestamp
    metadata :=
      { region := region
        environment := "production"
        affectedResources := if alarmArn = "" then [] else [alarmArn]
        alarmName := alarmName
        alarmArn := alarmArn
        accountId := accountId } }

/-- JSON escaping of one character (as `JSON.stringify` performs on
string values). -/
def jsonEscapeChar (c : Char) : List Char :=
  if c = '"' then ['\\', '"']
  else if c = '\\' then ['\\', '\\']
  else if c = '\n' then ['\\', 'n']
  else if c = '\r' then ['\\', 'r']
  else if c = '\t' then ['\\', 't']
  else if c = '\u0008' then ['\\', 'b']
  else if c = '\u000c' then ['\\', 'f']
  else if c.toNat < 0x20 then
    ['\\', 'u', '0', '0', "0123456789abcdef".data.getD (c.toNat / 16) '0',
      "0123456789abcdef".data.getD (c.toNat % 16) '0']
  else [c]

/-- A JSON string literal. -/
def jsonStr (s : String) : String :=
  "\"" ++ ⟨(s.data.map jsonEscapeChar).flatten⟩ ++ "\""

/-- A JSON array of string literals. -/
def jsonStrArr (l : List String) : String :=
  "[" ++ String.intercalate "," (l.map jsonStr) ++ "]"

/-- `JSON.stringify(payload)`: object keys in the insertion order of
`buildWebhookPayload`, with the nested `data.metadata` block. -/
def serializePayload (p : DevOpsAgentWebhookPayload) : String :=
  "\x7b\"eventType\":" ++ jsonStr p.eventType ++
  ",\"incidentId\":" ++ jsonStr p.incidentId ++
  ",\"action\":" ++ jsonStr p.action ++
  ",\"priority\":" ++ jsonStr p.priority ++
  ",\"title\":" ++ jsonStr p.title ++
  ",\"description\":" ++ jsonStr p.description ++
  ",\"service\":" ++ jsonStr p.service ++
  ",\"timestamp\":" ++ jsonStr p.timestamp ++
  ",\"data\":\x7b\"metadata\":\x7b\"region\":" ++ jsonStr p.metadata.region ++
  ",\"environment\":" ++ jsonStr p.metadata.environment ++
  ",\"affectedResources\":" ++ jsonStrArr p.metadata.affectedResources ++
  ",\"alarmName\":" ++ jsonStr p.metadata.alarmName ++
  ",\"alarmArn\":" ++ jsonStr p.metadata.alarmArn ++
  ",\"accountId\":" ++ jsonStr p.metadata.accountId ++
  "\x7d\x7d\x7d"

/-- The outbound HTTPS request assembled by `sendWebhook` (lines 156-178):
method, content headers, the two signature-scheme headers, and the body. -/
structure SignedRequest where
  method : String
  contentType : String
  contentLength : Nat
  timestampHeader : String
  signatureHeader : String
  body : String

/-- What the HTTPS transport reports back for a request: a response with
an optional status code and a body, or a request-level error event. -/
inductive TransportOutcome where
  | response (status : Option Nat) (body : String) : TransportOutcome
  | transportError (message : String) : TransportOutcome

/-- The request-building half of `sendWebhook` (lines 157-178): serialize
the payload once, read the wall clock (`sendIso`), sign
`timestamp + ':' + payloadString` with HMAC-SHA256 under the secret, and
assemble the POST whose body is that same `payloadString`. -/
def mkSignedRequest (secret : String) (payload : DevOpsAgentWebhookPayload)
    (sendIso : String) : SignedRequest :=
  let payloadString := serializePayload payload
  let signature :=
    hmacSha256Base64 (utf8Bytes secret)
      (utf8Bytes (sendIso ++ ":" ++ payloadString))
  { method := "POST"
    contentType := "application/json"
    contentLength := (utf8Bytes payloadString).length
    timestampHeader := sendIso
    signatureHeader := signature
    body := payloadString }

/-- The truthy-2xx test of line 190:
`res.statusCode && res.statusCode >= 200 && res.statusCode < 300`. -/
def statusIs2xx : Option Nat → Bool
  | none => false
  | some s => decide (s ≠ 0) && decide (200 ≤ s) && decide (s < 300)

/-- `${res.statusCode}` in the failure message: `undefined` when the
status is absent. -/
def statusToString : Option Nat → String
  | none => "undefined"
  | some s => toString s

/-- The response-handling half of `sendWebhook` (lines 180-205): resolve
on a truthy 2xx status, reject with the status/body message otherwise,
and reject with the error itself on a request-level error event. -/
def classifyResponse : TransportOutcome → Except String Unit
  | .response st body =>
      if statusIs2xx st then .ok ()
      else
        .error ("Webhook failed with status " ++ statusToString st ++ ": " ++
          body)
  | .transportError m => .error m

/-- `sendWebhook` (lines 156-206): build the signed request, hand it to
the transport, classify the outcome.  Returns the classification together
with the single request that went over the wire. -/
def sendWebhook (secret : String) (payload : DevOpsAgentWebhookPayload)
    (sendIso : String) (transport : SignedRequest → TransportOutcome) :
    Except String Unit × SignedRequest :=
  let req := mkSignedRequest secret payload sendIso
  (classifyResponse (transport req), req)

/-- Observable behavior of one handler invocation: the returned/thrown
result, the requests issued to the HTTPS transport, and the payload the
run constructed (if it reached `buildWebhookPayload`). -/
structure HandlerTrace where
  result : Except String Unit
  requests : List SignedRequest
  builtPayload : Option DevOpsAgentWebhookPayload

/-- The alarm state read of line 75:
`event.alarmData?.state?.value || 'UNKNOWN'`. -/
def alarmStateOf (event : CloudWatchAlarmEvent) : String :=
  orFalsy ((event.alarmData.bind (·.state)).bind (·.value)) "UNKNOWN"

/-- The webhook-notifier handler (`webhook-notifier.ts` lines 71-119).
Clock reads are explicit: `fallbackIso` is the `new Date().toISOString()`
fallback for a missing state timestamp (line 77), `nowMs` is the
`Date.now()` of `buildWebhookPayload`, `sendIso` the
`new Date().toISOString()` of `sendWebhook`.  The HTTPS transport is a
parameter; the trace records the requests given to it. -/
def handler (cfg : WebhookConfig) (event : CloudWatchAlarmEvent)
    (fallbackIso sendIso : String) (nowMs : Nat)
    (transport : SignedRequest → TransportOutcome) : HandlerTrace :=
  let alarmName := orFalsy (event.alarmData.bind (·.alarmName)) "Unknown Alarm"
  let alarmState := alarmStateOf event
  let stateReason :=
    orFalsy ((event.alarmData.bind (·.state)).bind (·.reason))
      "No reason provided"
  let timestamp :=
    orFalsy ((event.alarmData.bind (·.state)).bind (·.timestamp)) fallbackIso
  let accountId := orFalsy event.accountId "unknown"
  let region := orFalsy event.region "us-east-1"
  let alarmArn := orFalsy event.alarmArn ""
  if alarmState ≠ "ALARM" then
    { result := .ok (), requests := [], builtPayload := none }
  else if cfg.enabled = false then
    let dryRunPayload := buildWebhookPayload cfg.serviceName alarmName
      stateReason timestamp region accountId alarmArn nowMs
    { result := .ok (), requests := [], builtPayload := some dryRunPayload }
  else if cfg.url = "" then
    { result := .error "WEBHOOK_URL is required when WEBHOOK_ENABLED=true"
      requests := [], builtPayload := none }
  else if cfg.secret = "" then
    { result := .error "WEBHOOK_SECRET is required when WEBHOOK_ENABLED=true"
      requests := [], builtPayload := none }
  else
    let payload := buildWebhookPayload cfg.serviceName alarmName stateReason
      timestamp region accountId alarmArn nowMs
    let r := sendWebhook cfg.secret payload sendIso transport
    { result := r.fst, requests := [r.snd], builtPayload := some payload }

end WebhookNotifier

/-! ## Concrete fixtures

Concrete inputs used to instantiate the theorems below: the stub store of
spec example 2, a fully-populated ALARM event, an OK event, an event with
no `alarmData`, the configuration variants, and stub transports. -/

/-- Store stub of spec example 2: success below index 40, capacity
exceeded from index 40 on. -/
def throttleFrom40 : Nat → Writer.PutOutcome := fun i =>
  if i < 40 then .ok
  else .err "ProvisionedThroughputExceededException"
    "The level of configured provisioned throughput for the table was exceeded"

/-- A store that always reports capacity exceeded. -/
def alwaysThrottle : Nat → Writer.PutOutcome := fun _ =>
  .err "ProvisionedThroughputExceededException"
    "The level of configured provisioned throughput for the table was exceeded"

/-- A fully-populated inbound event in state `ALARM`. -/
def alarmEventFx : WebhookNotifier.CloudWatchAlarmEvent :=
  { alarmArn := some "arn:aws:cloudwatch:us-east-1:123456789012:alarm:demo"
    accountId := some "123456789012"
    region := some "us-east-1"
    alarmData := some
      { alarmName := some "demo-devops-agent-dynamodb-write-throttle"
        state := some
          { value := some "ALARM"
            reason := some "Threshold Crossed"
            timestamp := some "2024-01-01T00:00:00Z" } } }

/-- The same event in state `OK`. -/
def okEventFx : WebhookNotifier.CloudWatchAlarmEvent :=
  { alarmEventFx with
    alarmData := some
      { alarmName := some "demo-devops-agent-dynamodb-write-throttle"
        state := some
          { value := some "OK"
            reason := some "Threshold Crossed"
            timestamp := some "2024-01-01T00:00:00Z" } } }

/-- An inbound event carrying no `alarmData` at all. -/
def emptyEventFx : WebhookNotifier.CloudWatchAlarmEvent :=
  { alarmArn := none, accountId := none, region := none, alarmData := none }

/-- Enabled configuration with a destination and a secret. -/
def cfgEnabledFx : WebhookNotifier.WebhookConfig :=
  { enabled := true, url := "https://example.test/hook", secret := "s3cr3t"
    serviceName := "DemoDevOpsAgent" }

/-- Dry-run configuration (`WEBHOOK_ENABLED=false`). -/
def cfgDisabledFx : WebhookNotifier.WebhookConfig :=
  { enabled := false, url := "", secret := "", serviceName := "DemoDevOpsAgent" }

/-- Enabled but with an empty `WEBHOOK_URL`. -/
def cfgNoUrlFx : WebhookNotifier.WebhookConfig :=
  { enabled := true, url := "", secret := "s3cr3t"
    serviceName := "DemoDevOpsAgent" }

/-- Enabled but with an empty `WEBHOOK_SECRET`. -/
def cfgNoSecretFx : WebhookNotifier.WebhookConfig :=
  { enabled := true, url := "https://example.test/hook", secret := ""
    serviceName := "DemoDevOpsAgent" }

/-- A transport stub that always answers HTTP 200. -/
def stubTransport200 : WebhookNotifier.SignedRequest →
    WebhookNotifier.TransportOutcome :=
  fun _ => .response (some 200) ""

/-- A transport stub that always answers HTTP 500 with body `oops`. -/
def stubTransport500 : WebhookNotifier.SignedRequest →
    WebhookNotifier.TransportOutcome :=
  fun _ => .response (some 500) "oops"

/-- A concrete incident payload. -/
def payloadFx : WebhookNotifier.DevOpsAgentWebhookPayload :=
  WebhookNotifier.buildWebhookPayload "DemoDevOpsAgent"
    "demo-devops-agent-dynamodb-write-throttle" "Threshold Crossed"
    "2024-01-01T00:00:00Z" "us-east-1" "123456789012"
    "arn:aws:cloudwatch:us-east-1:123456789012:alarm:demo" 1704067200000

/-! ## Supporting lemmas -/

/-- A string trivially contains what it is built around. -/
theorem containsSubstr_intro (n x y : String) : containsSubstr n (x ++ n ++ y) :=
  ⟨x, y, rfl⟩

/-- Prefixing preserves substring containment. -/
theorem containsSubstr_append_left (n x y : String)
    (h : containsSubstr n y) : containsSubstr n (x ++ y) := by
  obtain ⟨pre, suf, rfl⟩ := h
  exact ⟨x ++ pre, suf, by simp [String.append_assoc]⟩

/-- Each classified attempt raises the three outcome counters by exactly
one in total and leaves `totalAttempts` unchanged. -/
theorem classifyAttempt_counts (r : Writer.WriteResult)
    (o : Writer.PutOutcome) :
    (Writer.classifyAttempt r o).success + (Writer.classifyAttempt r o).throttled +
        (Writer.classifyAttempt r o).errors
      = r.success + r.throttled + r.errors + 1
    ∧ (Writer.classifyAttempt r o).totalAttempts = r.totalAttempts := by
  cases o with
  | ok => simp [Writer.classifyAttempt]; omega
  | err name m =>
      simp only [Writer.classifyAttempt]
      split <;> refine ⟨by simp; omega, by simp⟩

/-- The classification fold adds one contribution per element and keeps
`totalAttempts`. -/
theorem foldl_classify_counts (outcome : Nat → Writer.PutOutcome)
    (l : List Nat) (r : Writer.WriteResult) :
    ((l.foldl (fun a i => Writer.classifyAttempt a (outcome i)) r).success +
        (l.foldl (fun a i => Writer.classifyAttempt a (outcome i)) r).throttled +
        (l.foldl (fun a i => Writer.classifyAttempt a (outcome i)) r).errors
      = r.success + r.throttled + r.errors + l.length)
    ∧ (l.foldl (fun a i => Writer.classifyAttempt a (outcome i)) r).totalAttempts
      = r.totalAttempts := by
  induction l generalizing r with
  | nil => simp
  | cons a as ih =>
      simp only [List.foldl_cons, List.length_cons]
      have hstep := classifyAttempt_counts r (outcome a)
      have htail := ih (Writer.classifyAttempt r (outcome a))
      exact ⟨by omega, by rw [htail.2, hstep.2]⟩

/-- `runBatch` reports the requested batch size as `totalAttempts`. -/
theorem runBatch_totalAttempts (count : Nat) (outcome : Nat → Writer.PutOutcome) :
    (Writer.runBatch count outcome).totalAttempts = count := by
  have h := foldl_classify_counts outcome (List.range count)
    { success := 0, throttled := 0, errors := 0, totalAttempts := count }
  exact h.2

/-! ## Claims about the Write-and-Classify Driver -/

/-- Claim C1: a batch run of the driver propagates an error to its caller
iff the throttled count is positive; every such error message contains
the word `throttled` and the exact `throttled/attempted` counts; with
zero throttles the aggregated tally is returned as success regardless of
the failed count. -/
theorem writer_failure_signal (count : Nat) (outcome : Nat → Writer.PutOutcome) :
    ((∃ msg, Writer.handler count outcome = .error msg)
        ↔ 0 < (Writer.runBatch count outcome).throttled)
    ∧ (∀ msg, Writer.handler count outcome = .error msg →
        containsSubstr "throttled" msg
        ∧ containsSubstr
            (toString (Writer.runBatch count outcome).throttled ++ "/" ++
              toString count) msg)
    ∧ ((Writer.runBatch count outcome).throttled = 0 →
        Writer.handler count outcome = .ok (Writer.runBatch count outcome)) := by
  have hta := runBatch_totalAttempts count outcome
  by_cases ht : 0 < (Writer.runBatch count outcome).throttled
  · have he : Writer.handler count outcome
        = .error ("Throttling occurred: " ++
            toString (Writer.runBatch count outcome).throttled ++ "/" ++
            toString count ++ " requests were throttled") := by
      simp only [Writer.handler, if_pos ht, hta]
    refine ⟨⟨fun _ => ht, fun _ => ⟨_, he⟩⟩, fun msg hm => ?_, fun h0 => by omega⟩
    rw [he] at hm
    injection hm with hm
    subst hm
    constructor
    · exact containsSubstr_append_left _ _ _
        ⟨" requests were ", "", by decide⟩
    · exact ⟨"Throttling occurred: ", " requests were throttled",
        by simp [String.append_assoc]⟩
  · have he : Writer.handler count outcome = .ok (Writer.runBatch count outcome) := by
      simp only [Writer.handler, if_neg ht]
    refine ⟨⟨fun hex => ?_, fun h => absurd h ht⟩, fun msg hm => ?_, fun _ => he⟩
    · obtain ⟨msg, hm⟩ := hex
      rw [he] at hm
      cases hm
    · rw [he] at hm
      cases hm

/-- Claim C1 witness: spec example 2 — `count = 50` against a store
throttling indices ≥ 40 gives an error mentioning `throttled` and
`10/50`. -/
theorem writer_failure_signal_witness :
    containsSubstr "throttled" "Throttling occurred: 10/50 requests were throttled"
    ∧ containsSubstr
        (toString (Writer.runBatch 50 throttleFrom40).throttled ++ "/" ++ toString 50)
        "Throttling occurred: 10/50 requests were throttled" := by
  have h := writer_failure_signal 50 throttleFrom40
  exact h.2.1 "Throttling occurred: 10/50 requests were throttled" rfl

/-- Claim C2: for every batch size and every mix of per-attempt outcomes,
`attempted = succeeded + throttled + failed`: each attempt contributes to
exactly one counter. -/
theorem writer_classification_invariant (count : Nat)
    (outcome : Nat → Writer.PutOutcome) :
    (Writer.runBatch count outcome).totalAttempts
      = (Writer.runBatch count outcome).success +
        (Writer.runBatch count outcome).throttled +
        (Writer.runBatch count outcome).errors := by
  have h := foldl_classify_counts outcome (List.range count)
    { success := 0, throttled := 0, errors := 0, totalAttempts := count }
  have h1 := h.1
  have h2 := h.2
  simp [List.length_range] at h1 h2
  simp only [Writer.runBatch]
  omega

/-- Claim C3 counterexample: with `count = 0` the driver performs no
validation — it dispatches nothing and returns a normal success result
with all counters zero, contradicting `reject before dispatch`. -/
theorem writer_zero_count_cex :
    Writer.handler 0 (fun _ => Writer.PutOutcome.ok)
      = .ok { success := 0, throttled := 0, errors := 0, totalAttempts := 0 } := by
  rfl

/-- Claim C3 (amended): the driver does not validate the batch size:
with `count = 0` no attempts are dispatched and the invocation returns a
normal success result whose counters are all zero. -/
theorem writer_zero_count (outcome : Nat → Writer.PutOutcome) :
    Writer.handler 0 outcome
      = .ok { success := 0, throttled := 0, errors := 0, totalAttempts := 0 } := by
  rfl

/-! ## Supporting lemmas for the webhook dispatcher -/

/-- Nothing the whitespace-collapse emits is itself whitespace: runs are
replaced by `-` and all other characters are non-whitespace by the case
split. -/
theorem collapseWsAux_no_ws (l : List Char) :
    ∀ (flag : Bool), ∀ c ∈ WebhookNotifier.collapseWsAux l flag,
      WebhookNotifier.isJsWhitespace c = false := by
  induction l with
  | nil =>
      intro flag c hc
      simp [WebhookNotifier.collapseWsAux] at hc
  | cons a rest ih =>
      intro flag c hc
      by_cases ha : WebhookNotifier.isJsWhitespace a = true
      · rcases flag with _ | _
        · simp only [WebhookNotifier.collapseWsAux, ha, if_pos, if_true,
            Bool.false_eq_true, if_false, List.mem_cons] at hc
          rcases hc with hc | hc
          · subst hc
            decide
          · exact ih true c hc
        · simp only [WebhookNotifier.collapseWsAux, ha, if_true] at hc
          exact ih true c hc
      · simp only [WebhookNotifier.collapseWsAux, ha, Bool.false_eq_true,
          if_false, List.mem_cons] at hc
        rcases hc with hc | hc
        · subst hc
          simpa using ha
        · exact ih false c hc

/-- UTF-8 encoding distributes over string concatenation. -/
theorem utf8Bytes_append (a b : String) :
    utf8Bytes (a ++ b) = utf8Bytes a ++ utf8Bytes b := by
  simp [utf8Bytes, String.data_append]

/-- The UTF-8 bytes of `:` are the encoding of the single colon. -/
theorem utf8Bytes_colon : utf8Bytes ":" = utf8Char ':' := by
  decide

set_option maxRecDepth 8000 in
/-- FIPS 180-4 validation: SHA-256 of `abc`. -/
theorem sha256_vector_abc :
    sha256 (utf8Bytes "abc")
      = [0xba, 0x78, 0x16, 0xbf, 0x8f, 0x01, 0xcf, 0xea, 0x41, 0x41, 0x40, 0xde,
         0x5d, 0xae, 0x22, 0x23, 0xb0, 0x03, 0x61, 0xa3, 0x96, 0x17, 0x7a, 0x9c,
         0xb4, 0x10, 0xff, 0x61, 0xf2, 0x00, 0x15, 0xad] := by
  rfl

set_option maxRecDepth 8000 in
/-- RFC 4231 test case 2 validation: HMAC-SHA256 with key `Jefe`. -/
theorem hmacSha256_vector_jefe :
    hmacSha256 (utf8Bytes "Jefe") (utf8Bytes "what do ya want for nothing?")
      = [0x5b, 0xdc, 0xc1, 0x46, 0xbf, 0x60, 0x75, 0x4e, 0x6a, 0x04, 0x24, 0x26,
         0x08, 0x95, 0x75, 0xc7, 0x5a, 0x00, 0x3f, 0x08, 0x9d, 0x27, 0x39, 0x83,
         0x9d, 0xec, 0x58, 0xb9, 0x64, 0xec, 0x38, 0x43] := by
  rfl

set_option maxRecDepth 8000 in
/-- Base64 validation (RFC 4648 test strings) of the digest encoding. -/
theorem hmacSha256Base64_vector :
    hmacSha256Base64 (utf8Bytes "key")
        (utf8Bytes "The quick brown fox jumps over the lazy dog")
      = "97yD9DBThCSxMpjmqm+xQ+9NWaFJRhdZl0edvC0aPNg=" := by
  rfl

/-! ## Claims about the webhook dispatcher -/

/-- Claim C4: for every alarm context, the built payload's `incidentId`
is the alarm name with every whitespace run collapsed (to `-`, leaving no
whitespace in the token) followed by `-` and the build-time wall-clock
millisecond timestamp. -/
theorem webhook_incident_id (serviceName alarmName stateReason ts region
    accountId alarmArn : String) (nowMs : Nat) :
    (WebhookNotifier.buildWebhookPayload serviceName alarmName stateReason
        ts region accountId alarmArn nowMs).incidentId
      = WebhookNotifier.collapseWs alarmName ++ "-" ++ toString nowMs
    ∧ ∀ c ∈ (WebhookNotifier.collapseWs alarmName).data,
        WebhookNotifier.isJsWhitespace c = false := by
  refine ⟨rfl, ?_⟩
  intro c hc
  exact collapseWsAux_no_ws alarmName.data false c hc

/-- Claim C4 witness: a name with whitespace runs yields the collapsed
token plus the timestamp. -/
theorem webhook_incident_id_witness :
    (WebhookNotifier.buildWebhookPayload "DemoDevOpsAgent"
        "demo devops  agent alarm" "Threshold Crossed" "2024-01-01T00:00:00Z"
        "us-east-1" "123456789012" "arn:demo" 1704067200000).incidentId
      = "demo-devops-agent-alarm-1704067200000" := by
  have h := webhook_incident_id "DemoDevOpsAgent" "demo devops  agent alarm"
    "Threshold Crossed" "2024-01-01T00:00:00Z" "us-east-1" "123456789012"
    "arn:demo" 1704067200000
  rw [h.1]
  decide

/-- Claim C5 (amended): a non-`ALARM` state always returns normally with
no payload built and no network call; an `ALARM` state reaches payload
construction whenever the run passes the configuration gate (dry-run, or
enabled with non-empty url and secret) — but an enabled run with an empty
url or secret throws before `buildWebhookPayload`. -/
theorem webhook_alarm_gating (cfg : WebhookNotifier.WebhookConfig)
    (ev : WebhookNotifier.CloudWatchAlarmEvent) (fallbackIso sendIso : String)
    (nowMs : Nat)
    (transport : WebhookNotifier.SignedRequest → WebhookNotifier.TransportOutcome) :
    (WebhookNotifier.alarmStateOf ev ≠ "ALARM" →
        WebhookNotifier.handler cfg ev fallbackIso sendIso nowMs transport
          = { result := .ok (), requests := [], builtPayload := none })
    ∧ (WebhookNotifier.alarmStateOf ev = "ALARM" →
        (cfg.enabled = false ∨ (cfg.url ≠ "" ∧ cfg.secret ≠ "")) →
        ((WebhookNotifier.handler cfg ev fallbackIso sendIso nowMs
            transport).builtPayload).isSome = true) := by
  constructor
  · intro h
    simp [WebhookNotifier.handler, h]
  · intro h hok
    rcases hok with hd | ⟨hu, hs⟩
    · simp [WebhookNotifier.handler, h, hd]
    · by_cases he : cfg.enabled = false
      · simp [WebhookNotifier.handler, h, he]
      · simp [WebhookNotifier.handler, h, he, hu, hs]

/-- Claim C5 counterexample: an `ALARM`-state event under an enabled
configuration with an empty url throws the configuration error without
ever constructing a payload — so `ALARM` does not *always* proceed to
payload construction. -/
theorem webhook_alarm_gating_cex :
    WebhookNotifier.alarmStateOf alarmEventFx = "ALARM"
    ∧ WebhookNotifier.handler cfgNoUrlFx alarmEventFx "2024-01-01T00:00:00Z"
        "2024-01-01T00:00:01Z" 1704067200000 stubTransport200
      = { result := .error "WEBHOOK_URL is required when WEBHOOK_ENABLED=true",
          requests := [], builtPayload := none } :=
  ⟨rfl, rfl⟩

/-- Claim C5 witness: an `OK`-state event is skipped with an empty trace,
and an `ALARM`-state dry run constructs a payload. -/
theorem webhook_alarm_gating_witness :
    WebhookNotifier.alarmStateOf okEventFx ≠ "ALARM"
    ∧ WebhookNotifier.handler cfgEnabledFx okEventFx "2024-01-01T00:00:00Z"
        "2024-01-01T00:00:01Z" 0 stubTransport200
      = { result := .ok (), requests := [], builtPayload := none }
    ∧ ((WebhookNotifier.handler cfgDisabledFx alarmEventFx
          "2024-01-01T00:00:00Z" "2024-01-01T00:00:01Z" 0
          stubTransport200).builtPayload).isSome = true := by
  have h1 := webhook_alarm_gating cfgEnabledFx okEventFx "2024-01-01T00:00:00Z"
    "2024-01-01T00:00:01Z" 0 stubTransport200
  have h2 := webhook_alarm_gating cfgDisabledFx alarmEventFx
    "2024-01-01T00:00:00Z" "2024-01-01T00:00:01Z" 0 stubTransport200
  exact ⟨by decide, h1.1 (by decide), h2.2 (by decide) (Or.inl rfl)⟩

/-- Claim C6: with `enabled = false` the handler performs no network I/O
and completes successfully, for every event, every (possibly empty)
url/secret configuration and every transport. -/
theorem webhook_dry_run (cfg : WebhookNotifier.WebhookConfig)
    (ev : WebhookNotifier.CloudWatchAlarmEvent) (fallbackIso sendIso : String)
    (nowMs : Nat)
    (transport : WebhookNotifier.SignedRequest → WebhookNotifier.TransportOutcome)
    (h : cfg.enabled = false) :
    (WebhookNotifier.handler cfg ev fallbackIso sendIso nowMs
        transport).requests = []
    ∧ (WebhookNotifier.handler cfg ev fallbackIso sendIso nowMs
        transport).result = .ok () := by
  by_cases hs : WebhookNotifier.alarmStateOf ev = "ALARM"
  · simp [WebhookNotifier.handler, hs, h]
  · simp [WebhookNotifier.handler, hs]

/-- Claim C6 witness: the dry-run configuration on an `ALARM` event makes
zero transport calls and returns success. -/
theorem webhook_dry_run_witness :
    cfgDisabledFx.enabled = false
    ∧ (WebhookNotifier.handler cfgDisabledFx alarmEventFx
        "2024-01-01T00:00:00Z" "2024-01-01T00:00:01Z" 0
        stubTransport500).requests = []
    ∧ (WebhookNotifier.handler cfgDisabledFx alarmEventFx
        "2024-01-01T00:00:00Z" "2024-01-01T00:00:01Z" 0
        stubTransport500).result = .ok () := by
  have h := webhook_dry_run cfgDisabledFx alarmEventFx "2024-01-01T00:00:00Z"
    "2024-01-01T00:00:01Z" 0 stubTransport500 rfl
  exact ⟨rfl, h.1, h.2⟩

/-- Claim C7: an enabled configuration with an empty url or an empty
secret fails with a configuration error before any network attempt (zero
transport calls), on every `ALARM`-state event. -/
theorem webhook_preflight (cfg : WebhookNotifier.WebhookConfig)
    (ev : WebhookNotifier.CloudWatchAlarmEvent) (fallbackIso sendIso : String)
    (nowMs : Nat)
    (transport : WebhookNotifier.SignedRequest → WebhookNotifier.TransportOutcome)
    (hstate : WebhookNotifier.alarmStateOf ev = "ALARM")
    (hen : cfg.enabled = true)
    (hcfg : cfg.url = "" ∨ cfg.secret = "") :
    (WebhookNotifier.handler cfg ev fallbackIso sendIso nowMs
        transport).requests = []
    ∧ ∃ msg, (WebhookNotifier.handler cfg ev fallbackIso sendIso nowMs
        transport).result = .error msg := by
  have hne : ¬cfg.enabled = false := by simp [hen]
  rcases hcfg with hu | hsec
  · simp [WebhookNotifier.handler, hstate, hne, hu]
  · by_cases hu : cfg.url = ""
    · simp [WebhookNotifier.handler, hstate, hne, hu]
    · simp [WebhookNotifier.handler, hstate, hne, hu, hsec]

/-- Claim C7 witness: with an empty url, and with an empty secret, the
enabled handler on an `ALARM` event issues no request and throws. -/
theorem webhook_preflight_witness :
    ((WebhookNotifier.handler cfgNoUrlFx alarmEventFx "2024-01-01T00:00:00Z"
        "2024-01-01T00:00:01Z" 0 stubTransport200).requests = []
      ∧ ∃ msg, (WebhookNotifier.handler cfgNoUrlFx alarmEventFx
          "2024-01-01T00:00:00Z" "2024-01-01T00:00:01Z" 0
          stubTransport200).result = .error msg)
    ∧ (WebhookNotifier.handler cfgNoSecretFx alarmEventFx
        "2024-01-01T00:00:00Z" "2024-01-01T00:00:01Z" 0
        stubTransport200).requests = []
    ∧ ∃ msg, (WebhookNotifier.handler cfgNoSecretFx alarmEventFx
        "2024-01-01T00:00:00Z" "2024-01-01T00:00:01Z" 0
        stubTransport200).result = .error msg := by
  have h1 := webhook_preflight cfgNoUrlFx alarmEventFx "2024-01-01T00:00:00Z"
    "2024-01-01T00:00:01Z" 0 stubTransport200 (by decide) rfl (Or.inl rfl)
  have h2 := webhook_preflight cfgNoSecretFx alarmEventFx
    "2024-01-01T00:00:00Z" "2024-01-01T00:00:01Z" 0 stubTransport200
    (by decide) rfl (Or.inr rfl)
  exact ⟨h1, h2.1, h2.2⟩

/-- Claim C8: the signature header of every sent request is the base64
HMAC-SHA256, keyed by the secret, over exactly
`timestamp ++ ":" ++ body`, where `body` is byte-for-byte the request
body (the one serialization of the payload); and the signature is a
function of (secret, serialized body, timestamp) alone — identical inputs
yield the identical signature. -/
theorem webhook_signature_scheme (secret : String)
    (payload : WebhookNotifier.DevOpsAgentWebhookPayload) (sendIso : String)
    (transport : WebhookNotifier.SignedRequest → WebhookNotifier.TransportOutcome) :
    (WebhookNotifier.sendWebhook secret payload sendIso transport).snd.body
      = WebhookNotifier.serializePayload payload
    ∧ (WebhookNotifier.sendWebhook secret payload sendIso transport).snd.signatureHeader
      = hmacSha256Base64 (utf8Bytes secret)
          (utf8Bytes sendIso ++ utf8Char ':' ++
            utf8Bytes ((WebhookNotifier.sendWebhook secret payload sendIso
              transport).snd.body))
    ∧ ∀ (payload2 : WebhookNotifier.DevOpsAgentWebhookPayload),
        WebhookNotifier.serializePayload payload2
            = WebhookNotifier.serializePayload payload →
        (WebhookNotifier.sendWebhook secret payload2 sendIso transport).snd.signatureHeader
          = (WebhookNotifier.sendWebhook secret payload sendIso
              transport).snd.signatureHeader := by
  refine ⟨rfl, ?_, ?_⟩
  · show hmacSha256Base64 (utf8Bytes secret)
        (utf8Bytes (sendIso ++ ":" ++ WebhookNotifier.serializePayload payload))
      = _
    rw [utf8Bytes_append, utf8Bytes_append, utf8Bytes_colon]
    rfl
  · intro payload2 hp
    show hmacSha256Base64 (utf8Bytes secret)
        (utf8Bytes (sendIso ++ ":" ++ WebhookNotifier.serializePayload payload2))
      = hmacSha256Base64 (utf8Bytes secret)
          (utf8Bytes (sendIso ++ ":" ++ WebhookNotifier.serializePayload payload))
    rw [hp]

/-- Claim C8 witness: instantiated at the concrete fixture payload. -/
theorem webhook_signature_scheme_witness :
    (WebhookNotifier.sendWebhook "s3cr3t" payloadFx "2024-01-01T00:00:01.000Z"
        stubTransport200).snd.body
      = WebhookNotifier.serializePayload payloadFx
    ∧ (WebhookNotifier.sendWebhook "s3cr3t" payloadFx "2024-01-01T00:00:01.000Z"
        stubTransport200).snd.signatureHeader
      = (WebhookNotifier.sendWebhook "s3cr3t" payloadFx "2024-01-01T00:00:01.000Z"
          stubTransport200).snd.signatureHeader := by
  have h := webhook_signature_scheme "s3cr3t" payloadFx
    "2024-01-01T00:00:01.000Z" stubTransport200
  exact ⟨h.1, h.2.2 payloadFx rfl⟩

/-- Claim C9: a response status in `[200,300)` resolves the delivery;
any other response (other status or missing status) rejects with an error
carrying the status and the response body; a transport-level error
rejects with that error. -/
theorem webhook_response_classified (secret : String)
    (payload : WebhookNotifier.DevOpsAgentWebhookPayload) (sendIso : String)
    (transport : WebhookNotifier.SignedRequest → WebhookNotifier.TransportOutcome) :
    (∀ st body,
      transport (WebhookNotifier.sendWebhook secret payload sendIso
          transport).snd = .response st body →
      ((∃ s, st = some s ∧ 200 ≤ s ∧ s < 300) →
          (WebhookNotifier.sendWebhook secret payload sendIso transport).fst
            = .ok ())
      ∧ ((∀ s, st = some s → s < 200 ∨ 300 ≤ s) →
          (WebhookNotifier.sendWebhook secret payload sendIso transport).fst
            = .error ("Webhook failed with status " ++
                WebhookNotifier.statusToString st ++ ": " ++ body)))
    ∧ (∀ m,
      transport (WebhookNotifier.sendWebhook secret payload sendIso
          transport).snd = .transportError m →
      (WebhookNotifier.sendWebhook secret payload sendIso transport).fst
        = .error m) := by
  have hfst : (WebhookNotifier.sendWebhook secret payload sendIso transport).fst
      = WebhookNotifier.classifyResponse
          (transport (WebhookNotifier.sendWebhook secret payload sendIso
            transport).snd) := rfl
  constructor
  · intro st body hres
    rw [hres] at hfst
    constructor
    · rintro ⟨s, rfl, h1, h2⟩
      have hb : WebhookNotifier.statusIs2xx (some s) = true := by
        simp [WebhookNotifier.statusIs2xx]
        omega
      rw [hfst]
      simp [WebhookNotifier.classifyResponse, hb]
    · intro hout
      have hb : WebhookNotifier.statusIs2xx st = false := by
        cases st with
        | none => rfl
        | some s =>
            have := hout s rfl
            simp [WebhookNotifier.statusIs2xx]
            omega
      rw [hfst]
      simp [WebhookNotifier.classifyResponse, hb]
  · intro m hres
    rw [hres] at hfst
    exact hfst

/-- Claim C9 witness: spec example 3 — a stub transport answering 500
makes the delivery fail with an error carrying status 500 and the
response body. -/
theorem webhook_response_classified_witness :
    (WebhookNotifier.sendWebhook "s3cr3t" payloadFx "2024-01-01T00:00:01.000Z"
        stubTransport500).fst
      = .error "Webhook failed with status 500: oops" := by
  have h := webhook_response_classified "s3cr3t" payloadFx
    "2024-01-01T00:00:01.000Z" stubTransport500
  have h2 := (h.1 (some 500) "oops" rfl).2 (fun s hs => by cases hs; omega)
  have hs : "Webhook failed with status " ++
      WebhookNotifier.statusToString (some 500) ++ ": " ++ "oops"
      = "Webhook failed with status 500: oops" := by decide
  rw [h2, hs]

/-- Claim C10: an event lacking `alarmData` or a state value is read as
state `UNKNOWN`, which the gate treats as non-`ALARM`: for every
configuration the handler returns normally with no payload, no network
call and no error. -/
theorem webhook_missing_state (cfg : WebhookNotifier.WebhookConfig)
    (ev : WebhookNotifier.CloudWatchAlarmEvent) (fallbackIso sendIso : String)
    (nowMs : Nat)
    (transport : WebhookNotifier.SignedRequest → WebhookNotifier.TransportOutcome)
    (h : ev.alarmData = none
      ∨ ∃ ad, ev.alarmData = some ad ∧ (ad.state = none
          ∨ ∃ st, ad.state = some st ∧ st.value = none)) :
    WebhookNotifier.alarmStateOf ev = "UNKNOWN"
    ∧ WebhookNotifier.handler cfg ev fallbackIso sendIso nowMs transport
        = { result := .ok (), requests := [], builtPayload := none } := by
  have hs : WebhookNotifier.alarmStateOf ev = "UNKNOWN" := by
    rcases h with h | ⟨ad, had, h⟩
    · simp [WebhookNotifier.alarmStateOf, h, WebhookNotifier.orFalsy]
    · rcases h with h | ⟨st, hst, h⟩
      · simp [WebhookNotifier.alarmStateOf, had, h, WebhookNotifier.orFalsy]
      · simp [WebhookNotifier.alarmStateOf, had, hst, h, WebhookNotifier.orFalsy]
  exact ⟨hs, by simp [WebhookNotifier.handler, hs]⟩

/-- Claim C10 witness: the all-absent event under the enabled
configuration is skipped silently. -/
theorem webhook_missing_state_witness :
    WebhookNotifier.alarmStateOf emptyEventFx = "UNKNOWN"
    ∧ WebhookNotifier.handler cfgEnabledFx emptyEventFx "2024-01-01T00:00:00Z"
        "2024-01-01T00:00:01Z" 0 stubTransport200
      = { result := .ok (), requests := [], builtPayload := none } :=
  webhook_missing_state cfgEnabledFx emptyEventFx "2024-01-01T00:00:00Z"
    "2024-01-01T00:00:01Z" 0 stubTransport200 (Or.inl rfl)

end DemoDevOpsAgent
